import Mathlib

/-!
Verification of the simple-keyboard repository's virtual-keyboard engines.

The repository contains several near-identical engine variants.  The two that
the specification's claims cite are embedded here:

* `KidsKeyboard` — `src/_fap/kids-keyboard/dist/kids-keyboard.js` (the engine
  with the corrected Shift/CapsLock logic, input validation and the facade API);
* `TutorFunctional` — `src/_fap/typing_tutor/typing-tutor-keyboard-functional.js`
  (the minimal functional variant).

Buffers are embedded as `List Char` (JS strings of the relevant code points),
JS numbers that can be `NaN` as `JSNum`, arbitrary JS values passed across the
facade boundary as `JSValue`, and the observable error/warning reports
(`console.warn`, `console.error`, the declared `onError` callback) as `Report`
values returned alongside the new state.
-/

/-- Characters written via their code points to keep the source free of
delimiter-like literals: backquote (96). -/
def backquoteChar : Char := Char.ofNat 96

/-- Apostrophe (39). -/
def apostropheChar : Char := Char.ofNat 39

/-- Double quote (34). -/
def quoteChar : Char := Char.ofNat 34

/-- Left curly brace (123). -/
def lbraceChar : Char := Char.ofNat 123

/-- Right curly brace (125). -/
def rbraceChar : Char := Char.ofNat 125

/-- A JS number: either a genuine integer or `NaN`.  The carets and lengths in
this code are always integral, so integers (rather than general floats) are a
faithful carrier; `NaN` is kept because `validateCaretPosition` receives
caller-supplied values. -/
inductive JSNum where
  | num (n : Int)
  | nan
deriving DecidableEq, Repr

/-- An arbitrary JS value arriving at the facade boundary (`setInput`,
`setCaretPosition`).  Only stringness and numberness are inspected by the
code (`typeof` checks), so the other shapes are collapsed to tags. -/
inductive JSValue where
  | str (s : List Char)
  | number (x : JSNum)
  | boolean (b : Bool)
  | undef
  | nullVal
  | obj
deriving DecidableEq, Repr

/-- IEEE comparison `x < m` where `x` may be `NaN`: any comparison with `NaN`
is false. -/
def jsNumLt : JSNum → Int → Bool
  | .num n, m => decide (n < m)
  | .nan, _ => false

/-- IEEE comparison `x > m` where `x` may be `NaN`: any comparison with `NaN`
is false. -/
def jsNumGt : JSNum → Int → Bool
  | .num n, m => decide (n > m)
  | .nan, _ => false

/-- KeyboardState record (`createKeyboardState` in both variants). -/
structure KeyboardState where
  input : List Char
  caretPosition : Int
  isShiftPressed : Bool
  isLeftShiftPressed : Bool
  isRightShiftPressed : Bool
  isCapsLockOn : Bool
deriving DecidableEq, Repr

/-- Initial state: empty buffer, caret 0, all modifier flags false. -/
def createKeyboardState : KeyboardState :=
  { input := [], caretPosition := 0, isShiftPressed := false,
    isLeftShiftPressed := false, isRightShiftPressed := false,
    isCapsLockOn := false }

/-- Module-level constant `MAX_INPUT_LENGTH` of dist/kids-keyboard.js. -/
def MAX_INPUT_LENGTH : Nat := 10000

/-- The `SHIFT_MAP` object literal shared by the variants, as an association
list from unshifted glyph to shifted glyph. -/
def SHIFT_MAP : List (Char × Char) :=
  [(backquoteChar, '~'), ('1', '!'), ('2', '@'), ('3', '#'), ('4', '$'),
   ('5', '%'), ('6', '^'), ('7', '&'), ('8', '*'), ('9', '('), ('0', ')'),
   ('-', '_'), ('=', '+'), ('[', lbraceChar), (']', rbraceChar),
   ('\\', '|'), (';', ':'), (apostropheChar, quoteChar), (',', '<'),
   ('.', '>'), ('/', '?')]

/-- The test `/^[a-z]$/i.test(char)` on a single character: an ASCII letter of
either case. -/
def isAsciiLetter (c : Char) : Bool :=
  (('a' ≤ c) && (c ≤ 'z')) || (('A' ≤ c) && (c ≤ 'Z'))

/-- The hardware key event fields read by `updateModifierStatesInternal`:
`type` (keydown/keyup), `code`, `shiftKey`, and the CapsLock value reported by
`getModifierState` (`none` models the method being unavailable). -/
inductive EventType where
  | keydown
  | keyup
deriving DecidableEq, Repr

structure KeyEvent where
  type : EventType
  code : List Char
  shiftKey : Bool
  capsLockModifierState : Option Bool
deriving DecidableEq, Repr

/-- Observable report channels used by the facade: `console.warn` on
truncation, `console.error` in the `setInput` catch block, and the `onError`
callback declared in kids-keyboard.d.ts. -/
inductive Report where
  | warnTruncated
  | consoleError
  | onErrorCallback
deriving DecidableEq, Repr

namespace KidsKeyboard

/-- Embedding of `transformCharacter` (dist/kids-keyboard.js, lines 147-160):
letters use Shift XOR CapsLock, symbols use Shift alone via `SHIFT_MAP`. -/
def transformCharacter (char : Char) (state : KeyboardState) : Char :=
  if isAsciiLetter char then
    if state.isShiftPressed != state.isCapsLockOn then char.toUpper
    else char.toLower
  else if state.isShiftPressed then (SHIFT_MAP.lookup char).getD char
  else char

/-- Embedding of `validateInput` (lines 165-175) on string inputs: truncates
to `MAX_INPUT_LENGTH` with a warning flag when the input is longer. -/
def validateInput (input : List Char) : List Char × Bool :=
  if input.length > MAX_INPUT_LENGTH then (input.take MAX_INPUT_LENGTH, true)
  else (input, false)

/-- Embedding of `validateInput` including the `typeof` guard: a non-string
value throws (`Except.error`), a string is validated, possibly with a
truncation warning. -/
def validateInputJS : JSValue → Except (List Char) (List Char × Bool)
  | .str s => .ok (validateInput s)
  | _ => .error ("Input must be a string".toList)

/-- Embedding of `validateCaretPosition` (lines 177-185).  A non-number fails
the `typeof` check and yields 0.  For numbers the JS comparisons are IEEE:
both `NaN < 0` and `NaN > length` are false, so a `NaN` caret falls through
both guards and is returned as is. -/
def validateCaretPosition : JSValue → Nat → JSNum
  | .number x, inputLength =>
      if jsNumLt x 0 then .num 0
      else if jsNumGt x inputLength then .num inputLength
      else x
  | _, _ => .num 0

/-- The integer specialization of `validateCaretPosition`, used where the
engine passes its own (always integral) caret values. -/
def clampCaret (caretPosition : Int) (inputLength : Nat) : Int :=
  if caretPosition < 0 then 0
  else if caretPosition > (inputLength : Int) then inputLength
  else caretPosition

/-- Embedding of `updateInputAtCaret` (lines 187-197): validate the buffer,
clamp the caret, splice the new character in, advance the caret. -/
def updateInputAtCaret (input : List Char) (caretPosition : Int)
    (newChar : Char) : List Char × Int :=
  let validInput := (validateInput input).1
  let validCaret := clampCaret caretPosition validInput.length
  (validInput.take validCaret.toNat ++ [newChar] ++
     validInput.drop validCaret.toNat,
   validCaret + 1)

/-- Embedding of `deleteAtCaret` (lines 199-211): validate the buffer, clamp
the caret; a clamped caret of 0 returns the validated buffer with caret 0,
otherwise the character before the caret is removed. -/
def deleteAtCaret (input : List Char) (caretPosition : Int) :
    List Char × Int :=
  let validInput := (validateInput input).1
  let validCaret := clampCaret caretPosition validInput.length
  if validCaret ≤ 0 then (validInput, 0)
  else (validInput.take (validCaret.toNat - 1) ++
          validInput.drop validCaret.toNat,
        validCaret - 1)

/-- Embedding of `updateModifierStatesInternal` (lines 386-416): copy the
state, overwrite `isShiftPressed` from the event, set/clear the specific
shift flag on keydown/keyup of the shift key codes, and mirror the hardware
CapsLock state when `getModifierState` is available and differs. -/
def updateModifierStatesInternal (currentState : KeyboardState)
    (event : KeyEvent) : KeyboardState :=
  let s1 := { currentState with isShiftPressed := event.shiftKey }
  let s2 :=
    if event.type = EventType.keydown then
      if event.code = "ShiftLeft".toList then
        { s1 with isLeftShiftPressed := true }
      else if event.code = "ShiftRight".toList then
        { s1 with isRightShiftPressed := true }
      else s1
    else
      if event.code = "ShiftLeft".toList then
        { s1 with isLeftShiftPressed := false }
      else if event.code = "ShiftRight".toList then
        { s1 with isRightShiftPressed := false }
      else s1
  match event.capsLockModifierState with
  | some capsLockState =>
      if capsLockState ≠ currentState.isCapsLockOn then
        { s2 with isCapsLockOn := capsLockState }
      else s2
  | none => s2

/-- State-value part of `handleKeyPress` (lines 524-588): the switch over the
key token.  Control tokens edit the buffer, modifier tokens leave the state
value unchanged, a single-character token inserts its transform, and any
other token falls through the default branch with no edit. -/
def handleKeyPress (key : List Char) (state : KeyboardState) :
    KeyboardState :=
  if key = "Backspace".toList then
    let r := deleteAtCaret state.input state.caretPosition
    { state with input := r.1, caretPosition := r.2 }
  else if key = "Enter".toList then
    let r := updateInputAtCaret state.input state.caretPosition '\n'
    { state with input := r.1, caretPosition := r.2 }
  else if key = "Space".toList then
    let r := updateInputAtCaret state.input state.caretPosition ' '
    { state with input := r.1, caretPosition := r.2 }
  else if key = "Tab".toList then
    let r := updateInputAtCaret state.input state.caretPosition '\t'
    { state with input := r.1, caretPosition := r.2 }
  else if key = "ShiftLeft".toList ∨ key = "ShiftRight".toList ∨
          key = "CapsLock".toList then
    state
  else
    match key with
    | [c] =>
        let r := updateInputAtCaret state.input state.caretPosition
                   (transformCharacter c state)
        { state with input := r.1, caretPosition := r.2 }
    | _ => state

/-- Embedding of the facade `setInput` (lines 751-764): validate; on success
install the validated buffer with the caret clamped to its length (emitting
the truncation warning when one occurred); the thrown validation error is
caught and reported through `console.error`, leaving the state untouched. -/
def setInput (state : KeyboardState) (input : JSValue) :
    KeyboardState × List Report :=
  match validateInputJS input with
  | .ok (validInput, warned) =>
      let newCaret := clampCaret (validInput.length : Int) validInput.length
      ({ state with input := validInput, caretPosition := newCaret },
       if warned then [Report.warnTruncated] else [])
  | .error _ => (state, [Report.consoleError])

/-- Embedding of the facade `setCaretPosition` (lines 772-780) for number
positions: the caret is clamped against the current buffer length. -/
def setCaretPosition (state : KeyboardState) (position : Int) :
    KeyboardState :=
  { state with caretPosition := clampCaret position state.input.length }

end KidsKeyboard

namespace TutorFunctional

/-- Embedding of `transformCharacter`
(typing-tutor-keyboard-functional.js, lines 76-98): a single blended
`shouldUseShift` predicate (Shift XOR CapsLock) governs letters AND symbols;
when it is false everything is lowercased, when true letters are uppercased
and symbols are looked up in the shift map. -/
def transformCharacter (char : Char) (state : KeyboardState) : Char :=
  let shouldUseShift := state.isShiftPressed != state.isCapsLockOn
  if !shouldUseShift then char.toLower
  else if isAsciiLetter char then char.toUpper
  else (SHIFT_MAP.lookup char).getD char

/-- Embedding of `updateInputAtCaret` (lines 100-107): raw substring splice,
no validation.  JS `substring` clamps a negative index to 0 and an index past
the end to the length, which `Int.toNat` together with `take`/`drop` mirror. -/
def updateInputAtCaret (input : List Char) (caretPosition : Int)
    (newChar : Char) : List Char × Int :=
  (input.take caretPosition.toNat ++ [newChar] ++
     input.drop caretPosition.toNat,
   caretPosition + 1)

/-- Embedding of `deleteAtCaret` (lines 109-118): for `caret ≤ 0` the pair is
returned unchanged (including a negative caret); otherwise the character
before the caret is removed and the caret decremented. -/
def deleteAtCaret (input : List Char) (caretPosition : Int) :
    List Char × Int :=
  if caretPosition ≤ 0 then (input, caretPosition)
  else (input.take (caretPosition.toNat - 1) ++
          input.drop caretPosition.toNat,
        caretPosition - 1)

/-- Embedding of `updateModifierStates` (lines 315-345); the body is the same
as the kids-keyboard variant's `updateModifierStatesInternal`. -/
def updateModifierStates (currentState : KeyboardState)
    (event : KeyEvent) : KeyboardState :=
  let s1 := { currentState with isShiftPressed := event.shiftKey }
  let s2 :=
    if event.type = EventType.keydown then
      if event.code = "ShiftLeft".toList then
        { s1 with isLeftShiftPressed := true }
      else if event.code = "ShiftRight".toList then
        { s1 with isRightShiftPressed := true }
      else s1
    else
      if event.code = "ShiftLeft".toList then
        { s1 with isLeftShiftPressed := false }
      else if event.code = "ShiftRight".toList then
        { s1 with isRightShiftPressed := false }
      else s1
  match event.capsLockModifierState with
  | some capsLockState =>
      if capsLockState ≠ currentState.isCapsLockOn then
        { s2 with isCapsLockOn := capsLockState }
      else s2
  | none => s2

end TutorFunctional

/-- C1: counterexample/failing-input evaluation.  The claim says CapsLock has
no effect on mapped symbols, so transform of the digit 1 with
`shift = false, caps = true` must be the digit 1 itself.  The
typing-tutor-functional variant instead routes symbols through the blended
Shift-XOR-CapsLock predicate and yields the shifted glyph, while the
kids-keyboard variant (whose source marks this logic as the corrected one)
returns the digit unchanged. -/
theorem tutorTransform_symbol_capsLock_bug :
    TutorFunctional.transformCharacter '1'
        { createKeyboardState with isCapsLockOn := true } = '!' ∧
    KidsKeyboard.transformCharacter '1'
        { createKeyboardState with isCapsLockOn := true } = '1' ∧
    KidsKeyboard.transformCharacter '1'
        { createKeyboardState with isShiftPressed := true, isCapsLockOn := true }
      = '!' := by decide

/-- C2: for every modifier state and every ASCII letter (either incoming
case), both variants of the character transformer output the uppercase form
exactly when Shift XOR CapsLock holds, and the lowercase form otherwise. -/
theorem transformCharacter_alpha_case (s : KeyboardState) (c : Char)
    (h : isAsciiLetter c = true) :
    KidsKeyboard.transformCharacter c s =
      (if s.isShiftPressed != s.isCapsLockOn then c.toUpper else c.toLower) ∧
    TutorFunctional.transformCharacter c s =
      (if s.isShiftPressed != s.isCapsLockOn then c.toUpper else c.toLower) := by
  constructor
  · simp [KidsKeyboard.transformCharacter, h]
  · cases hx : (s.isShiftPressed != s.isCapsLockOn) <;>
      simp [TutorFunctional.transformCharacter, h, hx]

/-- C2 witness: the theorem applied to the concrete letter b with Shift held
and CapsLock off. -/
theorem transformCharacter_alpha_case_witness :
    KidsKeyboard.transformCharacter 'b'
      { createKeyboardState with isShiftPressed := true } =
      (if ({ createKeyboardState with isShiftPressed := true } :
            KeyboardState).isShiftPressed !=
          ({ createKeyboardState with isShiftPressed := true } :
            KeyboardState).isCapsLockOn then 'b'.toUpper else 'b'.toLower) ∧
    TutorFunctional.transformCharacter 'b'
      { createKeyboardState with isShiftPressed := true } =
      (if ({ createKeyboardState with isShiftPressed := true } :
            KeyboardState).isShiftPressed !=
          ({ createKeyboardState with isShiftPressed := true } :
            KeyboardState).isCapsLockOn then 'b'.toUpper else 'b'.toLower) :=
  transformCharacter_alpha_case _ 'b' (by decide)

/-- C5: counterexample.  The claim says clampCaret returns 0 for every
invalid input including not-a-number values; in the code a NaN caret fails
both IEEE comparisons (`NaN < 0` and `NaN > length` are false) and is
returned unchanged, not clamped to 0. -/
theorem validateCaretPosition_nan_counterexample :
    KidsKeyboard.validateCaretPosition (JSValue.number JSNum.nan) 11 =
      JSNum.nan ∧ JSNum.nan ≠ JSNum.num 0 := by decide

/-- C5 (amended): clampCaret returns 0 for non-numeric or negative input and
the buffer length for numeric values beyond the end, returns in-range values
unchanged, and never fails; a NaN caret however passes through unchanged.
The facade setCaretPosition on a length-11 buffer yields caret 0 for -5 and
caret 11 for 999. -/
theorem validateCaretPosition_amended :
    (∀ (v : JSValue) (len : Nat), (∀ x, v ≠ JSValue.number x) →
       KidsKeyboard.validateCaretPosition v len = JSNum.num 0) ∧
    (∀ (n : Int) (len : Nat), n < 0 →
       KidsKeyboard.validateCaretPosition (JSValue.number (JSNum.num n)) len =
         JSNum.num 0) ∧
    (∀ (n : Int) (len : Nat), (len : Int) < n →
       KidsKeyboard.validateCaretPosition (JSValue.number (JSNum.num n)) len =
         JSNum.num len) ∧
    (∀ (n : Int) (len : Nat), 0 ≤ n → n ≤ (len : Int) →
       KidsKeyboard.validateCaretPosition (JSValue.number (JSNum.num n)) len =
         JSNum.num n) ∧
    (∀ len : Nat,
       KidsKeyboard.validateCaretPosition (JSValue.number JSNum.nan) len =
         JSNum.nan) ∧
    (∀ s : KeyboardState, s.input.length = 11 →
       (KidsKeyboard.setCaretPosition s (-5)).caretPosition = 0 ∧
       (KidsKeyboard.setCaretPosition s 999).caretPosition = 11) := by
  refine ⟨?_, ?_, ?_, ?_, ?_, ?_⟩
  · intro v len hv
    cases v with
    | number x => exact absurd rfl (hv x)
    | str s => rfl
    | boolean b => rfl
    | undef => rfl
    | nullVal => rfl
    | obj => rfl
  · intro n len hn
    simp [KidsKeyboard.validateCaretPosition, jsNumLt, hn]
  · intro n len hn
    have h1 : ¬ n < 0 := by omega
    simp [KidsKeyboard.validateCaretPosition, jsNumLt, jsNumGt, h1, hn]
  · intro n len h0 h1
    have h2 : ¬ n < 0 := by omega
    have h3 : ¬ len < n := by omega
    simp [KidsKeyboard.validateCaretPosition, jsNumLt, jsNumGt, h2, h3]
  · intro len
    simp [KidsKeyboard.validateCaretPosition, jsNumLt, jsNumGt]
  · intro s hs
    constructor
    · simp [KidsKeyboard.setCaretPosition, KidsKeyboard.clampCaret, hs]
    · simp [KidsKeyboard.setCaretPosition, KidsKeyboard.clampCaret, hs]

/-- C5 witness: the amended theorem applied to concrete inputs, including the
two setCaretPosition examples on a buffer of length 11. -/
theorem validateCaretPosition_amended_witness :
    KidsKeyboard.validateCaretPosition JSValue.undef 5 = JSNum.num 0 ∧
    KidsKeyboard.validateCaretPosition (JSValue.number (JSNum.num (-5))) 11 =
      JSNum.num 0 ∧
    KidsKeyboard.validateCaretPosition (JSValue.number (JSNum.num 999)) 11 =
      JSNum.num 11 ∧
    (KidsKeyboard.setCaretPosition
        { createKeyboardState with input := List.replicate 11 'x' }
        (-5)).caretPosition = 0 ∧
    (KidsKeyboard.setCaretPosition
        { createKeyboardState with input := List.replicate 11 'x' }
        999).caretPosition = 11 := by
  obtain ⟨h1, h2, h3, _h4, _h5, h6⟩ := validateCaretPosition_amended
  have hlen : ({ createKeyboardState with input := List.replicate 11 'x' } :
      KeyboardState).input.length = 11 := by decide
  exact ⟨h1 JSValue.undef 5 (fun x h => by cases h),
         h2 (-5) 11 (by omega),
         h3 999 11 (by omega),
         (h6 _ hlen).1, (h6 _ hlen).2⟩

/-- C7: for every state and every non-string value, the facade setInput is a
no-op leaving the whole state record unchanged; the caught validation error
is reported through console.error, and the onError callback declared in
kids-keyboard.d.ts is never invoked (no onError report is ever emitted). -/
theorem setInput_nonString_noop (s : KeyboardState) (v : JSValue)
    (h : ∀ t, v ≠ JSValue.str t) :
    KidsKeyboard.setInput s v = (s, [Report.consoleError]) := by
  cases v with
  | str t => exact absurd rfl (h t)
  | number x => rfl
  | boolean b => rfl
  | undef => rfl
  | nullVal => rfl
  | obj => rfl

/-- C7 witness: setInput of the number 42 on the initial state. -/
theorem setInput_nonString_noop_witness :
    KidsKeyboard.setInput createKeyboardState
        (JSValue.number (JSNum.num 42)) =
      (createKeyboardState, [Report.consoleError]) :=
  setInput_nonString_noop createKeyboardState (JSValue.number (JSNum.num 42))
    (fun t h => by cases h)

/-- C6: setInput with a string longer than the maximum yields a buffer that
is exactly the first MAX_INPUT_LENGTH characters of the string (the tail is
dropped), the caret at that length, and a truncation warning — not an
error. -/
theorem setInput_oversize_truncates (s : KeyboardState) (input : List Char)
    (h : MAX_INPUT_LENGTH < input.length) :
    KidsKeyboard.setInput s (JSValue.str input) =
      ({ s with
          input := input.take MAX_INPUT_LENGTH
          caretPosition := (MAX_INPUT_LENGTH : Int) },
       [Report.warnTruncated]) := by
  have hgt : input.length > MAX_INPUT_LENGTH := h
  have htake : (input.take MAX_INPUT_LENGTH).length = MAX_INPUT_LENGTH := by
    simp [List.length_take]
    omega
  simp only [KidsKeyboard.setInput, KidsKeyboard.validateInputJS,
    KidsKeyboard.validateInput, if_pos hgt, htake]
  have hclamp : KidsKeyboard.clampCaret (MAX_INPUT_LENGTH : Int)
      MAX_INPUT_LENGTH = (MAX_INPUT_LENGTH : Int) := by
    simp [KidsKeyboard.clampCaret]
  rw [hclamp]
  simp

/-- C6 witness: the theorem applied to a string of 10001 letters on the
initial state. -/
theorem setInput_oversize_truncates_witness :
    KidsKeyboard.setInput createKeyboardState
        (JSValue.str (List.replicate 10001 'a')) =
      ({ createKeyboardState with
          input := (List.replicate 10001 'a').take MAX_INPUT_LENGTH
          caretPosition := (MAX_INPUT_LENGTH : Int) },
       [Report.warnTruncated]) :=
  setInput_oversize_truncates createKeyboardState (List.replicate 10001 'a')
    (by simp only [List.length_replicate, MAX_INPUT_LENGTH]; omega)

/-- C8: the modifier resolvers of both variants only touch the modifier
flags: the buffer and the caret of the output state equal those of the input
state, for every state and every hardware key event. -/
theorem updateModifierStates_frame (s : KeyboardState) (e : KeyEvent) :
    ((KidsKeyboard.updateModifierStatesInternal s e).input = s.input ∧
     (KidsKeyboard.updateModifierStatesInternal s e).caretPosition =
       s.caretPosition) ∧
    ((TutorFunctional.updateModifierStates s e).input = s.input ∧
     (TutorFunctional.updateModifierStates s e).caretPosition =
       s.caretPosition) := by
  constructor
  · rcases e with ⟨ty, code, sk, caps⟩
    unfold KidsKeyboard.updateModifierStatesInternal
    cases ty <;> rcases caps with _ | b <;> dsimp only <;> split_ifs <;>
      exact ⟨rfl, rfl⟩
  · rcases e with ⟨ty, code, sk, caps⟩
    unfold TutorFunctional.updateModifierStates
    cases ty <;> rcases caps with _ | b <;> dsimp only <;> split_ifs <;>
      exact ⟨rfl, rfl⟩

/-- C9: counterexample.  The claim says deleteBeforeCaret is the identity for
every caret ≤ 0; the kids-keyboard variant instead clamps a negative caret to
0, so the returned pair differs from the input pair. -/
theorem deleteAtCaret_negative_caret_counterexample :
    KidsKeyboard.deleteAtCaret ['a'] (-1) = (['a'], 0) ∧
    KidsKeyboard.deleteAtCaret ['a'] (-1) ≠ (['a'], -1) := by decide

/-- C9 (amended): for buffers within the length limit, deleteBeforeCaret
with caret ≤ 0 leaves the buffer unchanged and returns caret 0 in the
kids-keyboard variant (the caret is clamped, not preserved; the
typing-tutor-functional variant returns the pair fully unchanged), and for
0 < caret ≤ length both variants remove exactly the character before the
caret and decrement the caret by one. -/
theorem deleteAtCaret_spec (buf : List Char) (c : Int)
    (hlen : buf.length ≤ MAX_INPUT_LENGTH) :
    (c ≤ 0 →
      KidsKeyboard.deleteAtCaret buf c = (buf, 0) ∧
      TutorFunctional.deleteAtCaret buf c = (buf, c)) ∧
    (0 < c → c ≤ (buf.length : Int) →
      KidsKeyboard.deleteAtCaret buf c =
        (buf.take (c.toNat - 1) ++ buf.drop c.toNat, c - 1) ∧
      TutorFunctional.deleteAtCaret buf c =
        (buf.take (c.toNat - 1) ++ buf.drop c.toNat, c - 1)) := by
  have hv : KidsKeyboard.validateInput buf = (buf, false) := by
    unfold KidsKeyboard.validateInput
    rw [if_neg (by omega)]
  constructor
  · intro hc
    constructor
    · have hclamp : KidsKeyboard.clampCaret c buf.length = 0 := by
        unfold KidsKeyboard.clampCaret
        split_ifs with h1 h2 <;> omega
      simp [KidsKeyboard.deleteAtCaret, hv, hclamp]
    · simp [TutorFunctional.deleteAtCaret, if_pos hc]
  · intro h1 h2
    have hclamp : KidsKeyboard.clampCaret c buf.length = c := by
      unfold KidsKeyboard.clampCaret
      split_ifs with ha hb <;> omega
    constructor
    · simp only [KidsKeyboard.deleteAtCaret, hv, hclamp]
      rw [if_neg (by omega)]
    · simp only [TutorFunctional.deleteAtCaret]
      rw [if_neg (by omega)]

/-- C9 witness: the amended theorem applied to the buffer [a, b] at caret 2:
the b is removed and the caret becomes 1. -/
theorem deleteAtCaret_spec_witness :
    KidsKeyboard.deleteAtCaret ['a', 'b'] 2 = (['a'], 1) ∧
    TutorFunctional.deleteAtCaret ['a', 'b'] 2 = (['a'], 1) := by
  have h := (deleteAtCaret_spec ['a', 'b'] 2 (by decide)).2
    (by omega) (by decide)
  simpa using h

/-- C10: dispatching any key token that is neither a single character nor one
of the four control tokens (so the modifier tokens and every unrecognized
multi-character token) through the key-press handler leaves the buffer and
the caret of the state exactly unchanged. -/
theorem handleKeyPress_nonEditing_frame (s : KeyboardState)
    (key : List Char)
    (h1 : key.length ≠ 1)
    (hB : key ≠ "Backspace".toList) (hE : key ≠ "Enter".toList)
    (hS : key ≠ "Space".toList) (hT : key ≠ "Tab".toList) :
    (KidsKeyboard.handleKeyPress key s).input = s.input ∧
    (KidsKeyboard.handleKeyPress key s).caretPosition = s.caretPosition := by
  unfold KidsKeyboard.handleKeyPress
  rw [if_neg hB, if_neg hE, if_neg hS, if_neg hT]
  by_cases hm : key = "ShiftLeft".toList ∨ key = "ShiftRight".toList ∨
      key = "CapsLock".toList
  · rw [if_pos hm]
    exact ⟨rfl, rfl⟩
  · rw [if_neg hm]
    match key, h1 with
    | [], _ => exact ⟨rfl, rfl⟩
    | [c], h1 => exact absurd rfl h1
    | _ :: _ :: _, _ => exact ⟨rfl, rfl⟩

/-- C10 witness: pressing the CapsLock token on the initial state leaves the
buffer and caret unchanged. -/
theorem handleKeyPress_nonEditing_frame_witness :
    (KidsKeyboard.handleKeyPress ("CapsLock".toList)
        createKeyboardState).input = createKeyboardState.input ∧
    (KidsKeyboard.handleKeyPress ("CapsLock".toList)
        createKeyboardState).caretPosition =
      createKeyboardState.caretPosition :=
  handleKeyPress_nonEditing_frame createKeyboardState ("CapsLock".toList)
    (by decide) (by decide) (by decide) (by decide) (by decide)

theorem validateInput_fst_length (l : List Char) :
    (KidsKeyboard.validateInput l).1.length = min l.length MAX_INPUT_LENGTH := by
  unfold KidsKeyboard.validateInput
  split_ifs with h
  · simp [List.length_take]
    omega
  · simp
    omega

theorem validateInput_of_le (l : List Char)
    (h : l.length ≤ MAX_INPUT_LENGTH) :
    KidsKeyboard.validateInput l = (l, false) := by
  unfold KidsKeyboard.validateInput
  rw [if_neg (by omega)]

theorem clampCaret_of_bounds (c : Int) (len : Nat) (h0 : 0 ≤ c)
    (h1 : c ≤ (len : Int)) : KidsKeyboard.clampCaret c len = c := by
  unfold KidsKeyboard.clampCaret
  split_ifs <;> omega

theorem deleteAtCaret_fst_length (l : List Char) (c : Int) (h1 : 0 < c)
    (h2 : c ≤ ((min l.length MAX_INPUT_LENGTH : Nat) : Int)) :
    (KidsKeyboard.deleteAtCaret l c).1.length =
      min l.length MAX_INPUT_LENGTH - 1 := by
  have hv := validateInput_fst_length l
  have hcl : KidsKeyboard.clampCaret c
      (KidsKeyboard.validateInput l).1.length = c :=
    clampCaret_of_bounds _ _ (by omega) (by omega)
  simp only [KidsKeyboard.deleteAtCaret, hcl]
  rw [if_neg (by omega)]
  simp only [List.length_append, List.length_take, List.length_drop]
  omega

/-- C3: counterexample.  The claimed round trip fails for a buffer already at
the maximum length: inserting at caret 0 makes the buffer one character too
long, and the delete re-validates and truncates it before deleting, so the
original final character is lost.  The caret 0 satisfies the claim's
0 ≤ caret ≤ length(buf) guard. -/
theorem insert_delete_roundTrip_counterexample :
    KidsKeyboard.deleteAtCaret
        (KidsKeyboard.updateInputAtCaret
          (List.replicate MAX_INPUT_LENGTH 'a') 0 'b').1
        (KidsKeyboard.updateInputAtCaret
          (List.replicate MAX_INPUT_LENGTH 'a') 0 'b').2 ≠
      (List.replicate MAX_INPUT_LENGTH 'a', 0) := by
  have hmax : MAX_INPUT_LENGTH = 10000 := rfl
  have h1 : KidsKeyboard.updateInputAtCaret
      (List.replicate MAX_INPUT_LENGTH 'a') 0 'b' =
      ('b' :: List.replicate MAX_INPUT_LENGTH 'a', 1) := by
    have hv : KidsKeyboard.validateInput (List.replicate MAX_INPUT_LENGTH 'a')
        = (List.replicate MAX_INPUT_LENGTH 'a', false) :=
      validateInput_of_le _ (by simp)
    have hcl : KidsKeyboard.clampCaret 0
        (List.replicate MAX_INPUT_LENGTH 'a').length = 0 :=
      clampCaret_of_bounds _ _ (by omega) (by simp)
    simp only [KidsKeyboard.updateInputAtCaret, hv, hcl, Int.toNat_zero,
      List.take_zero, List.drop_zero, List.nil_append, List.singleton_append,
      zero_add]
  rw [h1]
  intro heq
  have hlen : (KidsKeyboard.deleteAtCaret
      ('b' :: List.replicate MAX_INPUT_LENGTH 'a') 1).1.length =
      (List.replicate MAX_INPUT_LENGTH 'a').length :=
    congrArg (fun p : List Char × Int => p.1.length) heq
  have h2 : (KidsKeyboard.deleteAtCaret
      ('b' :: List.replicate MAX_INPUT_LENGTH 'a') 1).1.length =
      min ('b' :: List.replicate MAX_INPUT_LENGTH 'a').length
        MAX_INPUT_LENGTH - 1 := by
    refine deleteAtCaret_fst_length _ 1 (by omega) ?_
    have hlc : ('b' :: List.replicate MAX_INPUT_LENGTH 'a').length = 10001 := by
      rw [List.length_cons, List.length_replicate, hmax]
    rw [hlc, hmax]
    norm_num
  rw [h2, List.length_cons, List.length_replicate, hmax] at hlen
  norm_num at hlen

/-- C3 (amended): for every buffer strictly below the maximum length, every
character and every caret 0 ≤ c ≤ length(buf), deleting before the caret
after inserting at the caret restores exactly the original (buffer, caret)
pair.  At a buffer already of the maximum length the insert overshoots and
the delete truncates first, losing the last character. -/
theorem insert_delete_roundTrip (buf : List Char) (c : Nat) (ch : Char)
    (hlen : buf.length < MAX_INPUT_LENGTH) (hc : c ≤ buf.length) :
    KidsKeyboard.deleteAtCaret
        (KidsKeyboard.updateInputAtCaret buf (c : Int) ch).1
        (KidsKeyboard.updateInputAtCaret buf (c : Int) ch).2 =
      (buf, (c : Int)) := by
  have hv : KidsKeyboard.validateInput buf = (buf, false) :=
    validateInput_of_le buf (by omega)
  have hcl : KidsKeyboard.clampCaret (c : Int) buf.length = (c : Int) :=
    clampCaret_of_bounds _ _ (by omega) (by omega)
  have htn : ((c : Int)).toNat = c := Int.toNat_natCast c
  have h1 : KidsKeyboard.updateInputAtCaret buf (c : Int) ch =
      (buf.take c ++ [ch] ++ buf.drop c, (c : Int) + 1) := by
    simp only [KidsKeyboard.updateInputAtCaret, hv, hcl, htn]
  rw [h1]
  have hA : (buf.take c).length = c := by
    simp [List.length_take]
    omega
  have hmidlen : (buf.take c ++ [ch] ++ buf.drop c).length = buf.length + 1 := by
    simp only [List.length_append, List.length_take, List.length_cons,
      List.length_nil, List.length_drop]
    omega
  have hv2 : KidsKeyboard.validateInput (buf.take c ++ [ch] ++ buf.drop c) =
      (buf.take c ++ [ch] ++ buf.drop c, false) :=
    validateInput_of_le _ (by omega)
  have hcl2 : KidsKeyboard.clampCaret ((c : Int) + 1)
      (buf.take c ++ [ch] ++ buf.drop c).length = (c : Int) + 1 :=
    clampCaret_of_bounds _ _ (by omega) (by rw [hmidlen]; push_cast; omega)
  have htn2 : ((c : Int) + 1).toNat = c + 1 := by omega
  simp only [KidsKeyboard.deleteAtCaret, hv2, hcl2, htn2]
  rw [if_neg (by omega)]
  have htake : (buf.take c ++ [ch] ++ buf.drop c).take (c + 1 - 1) =
      buf.take c := by
    rw [Nat.add_sub_cancel, List.append_assoc, List.take_append_eq_append_take,
      hA, Nat.sub_self, List.take_zero, List.append_nil,
      List.take_of_length_le (le_of_eq hA)]
  have hdrop : (buf.take c ++ [ch] ++ buf.drop c).drop (c + 1) =
      buf.drop c := by
    rw [List.append_assoc, List.drop_append_eq_append_drop,
      List.drop_eq_nil_of_le (by omega), List.nil_append, hA,
      List.singleton_append]
    have : c + 1 - c = 1 := by omega
    rw [this, List.drop_succ_cons, List.drop_zero]
  rw [htake, hdrop, List.take_append_drop]
  have : (c : Int) + 1 - 1 = (c : Int) := by omega
  rw [this]

/-- C3 witness: the amended round trip at the buffer [a, b], caret 1,
inserted character x. -/
theorem insert_delete_roundTrip_witness :
    KidsKeyboard.deleteAtCaret
        (KidsKeyboard.updateInputAtCaret ['a', 'b'] ((1 : Nat) : Int) 'x').1
        (KidsKeyboard.updateInputAtCaret ['a', 'b'] ((1 : Nat) : Int) 'x').2 =
      (['a', 'b'], ((1 : Nat) : Int)) :=
  insert_delete_roundTrip ['a', 'b'] 1 'x' (by decide) (by decide)

